import Mathlib

/-
  Verification of the NTP client core (src/01-ntp/ntp-client.c).

  Shallow embedding conventions:
  * 32-bit unsigned fields are `Nat` values, reduced `% 2^32` where C overflow
    matters; signed 8-bit fields (`poll`, `precision`) are `Int`.
  * `double` arithmetic is modelled exactly over `ℚ`; every quantity the claims
    compare is either exactly representable or the discrepancies at stake are
    many orders of magnitude above double rounding error.
  * C functions that take pointers are modelled with `Option`/`Bool` arguments
    for pointer presence; a NULL dereference (undefined behaviour / crash) is
    modelled as an outer `none`, and a C return code becomes `Except Int`.
  * The header `ntp-protocol.h` is not part of the sources; its macros and
    constants are modelled from the spec (and the in-file comments that quote
    them) and are marked `Modelled from the spec:` below.
-/

/-- Modelled from the spec: `NTP_EPOCH_OFFSET` from the missing header
`ntp-protocol.h` — the NTP epoch precedes the Unix epoch by 2,208,988,800
seconds (spec section 3; also quoted in `demonstrate_epoch_conversion`). -/
def NTP_EPOCH_OFFSET : Nat := 2208988800

/-- Modelled from the spec: `NTP_FRACTION_SCALE` (2^32) from the missing header
`ntp-protocol.h` — the denominator of the 32-bit binary fraction. -/
def NTP_FRACTION_SCALE : Nat := 4294967296

/-- Modelled from the spec: return codes `RC_OK` (0), `RC_BAD_PACKET` (-1) and
`RC_BUFF_TOO_SMALL` (-2) quoted in the doc comments of `build_ntp_request` and
`decode_reference_id`. -/
def RC_OK : Int := 0

/-- Modelled from the spec: see `RC_OK`. -/
def RC_BAD_PACKET : Int := -1

/-- Modelled from the spec: see `RC_OK`. -/
def RC_BUFF_TOO_SMALL : Int := -2

/-- Round-to-nearest division on `Nat` (half rounds up):
`roundDiv a b = round (a / b)` for positive `b`. -/
def roundDiv (a b : Nat) : Nat := (2 * a + b) / (2 * b)

/-- The 64-bit fixed-point NTP timestamp: 32-bit seconds since 1900 and a
32-bit binary fraction (struct `ntp_timestamp_t`, layout given in spec
section 3). -/
structure NtpTimestamp where
  seconds : Nat
  fraction : Nat
deriving DecidableEq

/-- Modelled from the spec: `UNIX_TO_NTP_SECONDS` from the missing header —
adds the epoch offset, wrapping consistently with unsigned 32-bit arithmetic
(spec section 3). -/
def UNIX_TO_NTP_SECONDS (s : Nat) : Nat := (s + NTP_EPOCH_OFFSET) % NTP_FRACTION_SCALE

/-- Modelled from the spec: `NTP_TO_UNIX_SECONDS` from the missing header —
subtracts the epoch offset, wrapping consistently with unsigned 32-bit
arithmetic (spec section 3). -/
def NTP_TO_UNIX_SECONDS (s : Nat) : Nat :=
  (s + NTP_FRACTION_SCALE - NTP_EPOCH_OFFSET) % NTP_FRACTION_SCALE

/-- Modelled from the spec: `MICROSECONDS_TO_FRACTIONS` from the missing
header — `fraction = round(microseconds * 2^32 / 1_000_000)` (spec
section 4.1). -/
def MICROSECONDS_TO_FRACTIONS (usec : Nat) : Nat :=
  roundDiv (usec * NTP_FRACTION_SCALE) 1000000

/-- Modelled from the spec: `FRACTIONS_TO_MICROSECONDS` from the missing
header — `microseconds = round(fraction * 1_000_000 / 2^32)` (spec
section 4.1). -/
def FRACTIONS_TO_MICROSECONDS (fraction : Nat) : Nat :=
  roundDiv (fraction * 1000000) NTP_FRACTION_SCALE

/-- Two's-complement reading of a 32-bit value, used for the signed Q16.16
fields. -/
def toInt32 (x : Nat) : Int :=
  if x % 4294967296 < 2147483648 then ((x % 4294967296 : Nat) : Int)
  else ((x % 4294967296 : Nat) : Int) - 4294967296

/-- Modelled from the spec: `GET_NTP_Q1616_TS` from the missing header —
interpret a 32-bit field as signed Q16.16 (upper 16 bits integer seconds,
lower 16 bits in 1/65536 units) and return it as a double (spec section 4.3),
modelled exactly over `ℚ`. -/
def GET_NTP_Q1616_TS (x : Nat) : ℚ := (toInt32 x : ℚ) / 65536

/-- Modelled from the spec: `SET_NTP_LI_VN_MODE` from the missing header —
pack leap indicator (2 bits, top), version (3 bits) and mode (3 bits, bottom)
into the control byte per the 2/3/3 layout (spec sections 3 and 6). -/
def SET_NTP_LI_VN_MODE (li vn mode : Nat) : Nat := (li % 4) * 64 + (vn % 8) * 8 + (mode % 8)

/-- Modelled from the spec: `GET_NTP_LI` from the missing header — the top
2 bits of the control byte. -/
def GET_NTP_LI (b : Nat) : Nat := b / 64 % 4

/-- Modelled from the spec: `GET_NTP_VN` from the missing header — bits 3..5
of the control byte. -/
def GET_NTP_VN (b : Nat) : Nat := b / 8 % 8

/-- Modelled from the spec: `GET_NTP_MODE` from the missing header — the low
3 bits of the control byte. -/
def GET_NTP_MODE (b : Nat) : Nat := b % 8

/-- `get_current_ntp_time` (ntp-client.c, lines 342-353), with the
`gettimeofday` reading injected as the pair `unix_sec`/`usec`:
seconds are shifted to the NTP epoch, microseconds are scaled to the 32-bit
fraction. -/
def get_current_ntp_time (unix_sec usec : Nat) : NtpTimestamp :=
  ⟨UNIX_TO_NTP_SECONDS unix_sec, MICROSECONDS_TO_FRACTIONS usec⟩

/-- `ntp_time_to_double` (ntp-client.c, lines 437-441): the code computes
`timestamp->seconds + FRACTIONS_TO_MICROSECONDS(timestamp->fraction) / pow(10,6)`,
i.e. it converts the binary fraction to whole microseconds first and divides
those by 10^6; double arithmetic modelled exactly over `ℚ`. -/
def ntp_time_to_double (ts : NtpTimestamp) : ℚ :=
  (ts.seconds : ℚ) + (FRACTIONS_TO_MICROSECONDS ts.fraction : ℚ) / 1000000

/-- The spec's words for the same conversion (spec section 4.1,
`to_seconds`): `ts.seconds + ts.fraction / 2^32`, the fraction divided by 2^32
directly. Stated separately so it can be compared with the code's
`ntp_time_to_double`. -/
def to_seconds_spec (ts : NtpTimestamp) : ℚ :=
  (ts.seconds : ℚ) + (ts.fraction : ℚ) / (NTP_FRACTION_SCALE : ℚ)

/-- A broken-down calendar time, the fields of `struct tm` that
`ntp_time_to_string` reads. -/
structure Tm where
  tm_year : Int
  tm_mon : Nat
  tm_mday : Nat
  tm_hour : Nat
  tm_min : Nat
  tm_sec : Nat

/-- Zero-padding to two digits, the `%02d` conversion of `snprintf`. -/
def pad2 (n : Nat) : String := if n < 10 then "0" ++ toString n else toString n

/-- Zero-padding to six digits, the `%06ld` conversion of `snprintf`. -/
def pad6 (n : Nat) : String :=
  if n < 10 then "00000" ++ toString n
  else if n < 100 then "0000" ++ toString n
  else if n < 1000 then "000" ++ toString n
  else if n < 10000 then "00" ++ toString n
  else if n < 100000 then "0" ++ toString n
  else toString n

/-- The `snprintf` format of `ntp_time_to_string` (ntp-client.c, line 398):
`"%d-%d-%d %d:%02d:%02d.%06ld"` applied to the fields of the broken-down
time and the microseconds. -/
def format_tm (t : Tm) (usec : Nat) : String :=
  toString (1900 + t.tm_year) ++ "-" ++ toString (1 + t.tm_mon) ++ "-" ++ toString t.tm_mday
    ++ " " ++ toString t.tm_hour ++ ":" ++ pad2 t.tm_min ++ ":" ++ pad2 t.tm_sec
    ++ "." ++ pad6 usec

/-- `ntp_time_to_string` (ntp-client.c, lines 386-399), with the libc calendar
conversions injected as oracles `localtime`/`gmtime` (each may fail, returning
NULL, modelled as `none`). The code picks the oracle by the `use_local` flag and
dereferences its result with no NULL check, so a failed conversion is a crash
(outer `none`), not a string. -/
def ntp_time_to_string (localtime gmtime : Nat → Option Tm)
    (ntp_ts : NtpTimestamp) (use_local : Bool) : Option String :=
  match (if use_local then localtime (NTP_TO_UNIX_SECONDS ntp_ts.seconds)
         else gmtime (NTP_TO_UNIX_SECONDS ntp_ts.seconds)) with
  | none => none
  | some t => some (format_tm t (FRACTIONS_TO_MICROSECONDS ntp_ts.fraction))

/-- Byte swap of a 32-bit value (the effect of `htonl`/`ntohl` on a
little-endian host). -/
def bswap32 (x : Nat) : Nat :=
  (x % 256) * 16777216 + (x / 256 % 256) * 65536 + (x / 65536 % 256) * 256 + (x / 16777216 % 256)

/-- `htonl`, parametrized by the host's endianness: a byte swap on a
little-endian host (`le = true`), the identity on a big-endian host. -/
def htonl (le : Bool) (x : Nat) : Nat := if le then bswap32 x else x

/-- `ntohl`, parametrized by the host's endianness, same action as `htonl`. -/
def ntohl (le : Bool) (x : Nat) : Nat := if le then bswap32 x else x

/-- `ntp_ts_to_net` (ntp-client.c, lines 505-510): `htonl` on both fields. -/
def ntp_ts_to_net (le : Bool) (ts : NtpTimestamp) : NtpTimestamp :=
  ⟨htonl le ts.seconds, htonl le ts.fraction⟩

/-- `ntp_ts_to_host` (ntp-client.c, lines 542-547): `ntohl` on both fields. -/
def ntp_ts_to_host (le : Bool) (ts : NtpTimestamp) : NtpTimestamp :=
  ⟨ntohl le ts.seconds, ntohl le ts.fraction⟩

/-- The 48-byte NTP packet, struct `ntp_packet_t` (layout given in spec
sections 3 and 6): the four 8-bit fields, three 32-bit scalars and four
embedded timestamps. `poll` and `precision` are signed 8-bit, modelled as
`Int`; the 32-bit scalars are `Nat` (the signed Q16.16 fields are read through
`toInt32` where their sign matters). -/
structure NtpPacket where
  li_vn_mode : Nat
  stratum : Nat
  poll : Int
  precision : Int
  root_delay : Nat
  root_dispersion : Nat
  reference_id : Nat
  ref_time : NtpTimestamp
  orig_time : NtpTimestamp
  recv_time : NtpTimestamp
  xmit_time : NtpTimestamp
deriving DecidableEq

/-- `ntp_to_net` (ntp-client.c, lines 603-613): `htonl` on the three 32-bit
scalars, `ntp_ts_to_net` on the four timestamps, 8-bit fields untouched. -/
def ntp_to_net (le : Bool) (p : NtpPacket) : NtpPacket :=
  { p with
    root_delay := htonl le p.root_delay
    root_dispersion := htonl le p.root_dispersion
    reference_id := htonl le p.reference_id
    orig_time := ntp_ts_to_net le p.orig_time
    recv_time := ntp_ts_to_net le p.recv_time
    ref_time := ntp_ts_to_net le p.ref_time
    xmit_time := ntp_ts_to_net le p.xmit_time }

/-- `ntp_to_host` (ntp-client.c, lines 633-645): `ntohl` on the three 32-bit
scalars, `ntp_ts_to_host` on the four timestamps, 8-bit fields untouched. -/
def ntp_to_host (le : Bool) (p : NtpPacket) : NtpPacket :=
  { p with
    root_delay := ntohl le p.root_delay
    root_dispersion := ntohl le p.root_dispersion
    reference_id := ntohl le p.reference_id
    orig_time := ntp_ts_to_host le p.orig_time
    recv_time := ntp_ts_to_host le p.recv_time
    ref_time := ntp_ts_to_host le p.ref_time
    xmit_time := ntp_ts_to_host le p.xmit_time }

/-- Well-formedness of a timestamp: both fields fit in 32 bits (always true of
the C `uint32_t` fields). -/
def ts_wf (t : NtpTimestamp) : Prop :=
  t.seconds < 4294967296 ∧ t.fraction < 4294967296

/-- Well-formedness of a packet: every 32-bit field fits in 32 bits (always
true of the C struct). -/
def packet_wf (p : NtpPacket) : Prop :=
  p.root_delay < 4294967296 ∧ p.root_dispersion < 4294967296 ∧
  p.reference_id < 4294967296 ∧
  ts_wf p.ref_time ∧ ts_wf p.orig_time ∧ ts_wf p.recv_time ∧ ts_wf p.xmit_time

instance (t : NtpTimestamp) : Decidable (ts_wf t) := by
  unfold ts_wf
  infer_instance

instance (p : NtpPacket) : Decidable (packet_wf p) := by
  unfold packet_wf
  infer_instance

/-- `build_ntp_request` (ntp-client.c, lines 720-734), with the pointer's
presence as `packet_present` and the `gettimeofday` reading injected as
`unix_sec`/`usec`: NULL gives `RC_BAD_PACKET`; otherwise the packet is
zero-filled, the control byte set to `SET_NTP_LI_VN_MODE(3,4,3)`, `poll` to 6,
`precision` to -20, and `xmit_time` to the current instant. -/
def build_ntp_request (packet_present : Bool) (unix_sec usec : Nat) :
    Except Int NtpPacket :=
  if !packet_present then .error RC_BAD_PACKET
  else .ok
    { li_vn_mode := SET_NTP_LI_VN_MODE 3 4 3
      stratum := 0
      poll := 6
      precision := -20
      root_delay := 0
      root_dispersion := 0
      reference_id := 0
      ref_time := ⟨0, 0⟩
      orig_time := ⟨0, 0⟩
      recv_time := ⟨0, 0⟩
      xmit_time := get_current_ntp_time unix_sec usec }

/-- `decode_reference_id` (ntp-client.c, lines 782-812). The code checks the
buffer size by stratum, extracts the four bytes of `ref_id` arithmetically
into `dat[0..3]` with `dat[0]` the LEAST significant byte, then renders:
stratum >= 2 prints `dat[3].dat[2].dat[1].dat[0]`; otherwise `ref_id == 0`
gives `"NONE"` and anything else is `strcpy` of `dat` — the bytes in
least-significant-first order, stopping at the first zero byte. -/
def decode_reference_id (stratum : Nat) (ref_id : Nat) (buff_sz : Nat) :
    Except Int String :=
  if stratum ≥ 2 ∧ buff_sz < 16 then .error RC_BUFF_TOO_SMALL
  else if ¬ stratum ≥ 2 ∧ buff_sz < 5 then .error RC_BUFF_TOO_SMALL
  else
    let dat0 := ref_id % 256
    let dat1 := ref_id / 256 % 256
    let dat2 := ref_id / 65536 % 256
    let dat3 := ref_id / 16777216 % 256
    if stratum ≥ 2 then
      .ok (toString dat3 ++ "." ++ toString dat2 ++ "." ++ toString dat1 ++ "." ++ toString dat0)
    else if ref_id = 0 then
      .ok "NONE"
    else
      .ok (String.mk (([dat0, dat1, dat2, dat3].takeWhile (fun b => b != 0)).map Char.ofNat))

/-- The derived result, struct `ntp_result_t` (spec section 3): offset, delay
and dispersion in seconds (doubles modelled as `ℚ`) and the retained T3/T4
timestamps. -/
structure NtpResult where
  offset : ℚ
  delay : ℚ
  final_dispersion : ℚ
  server_time : NtpTimestamp
  client_time : NtpTimestamp
deriving DecidableEq

/-- `calculate_ntp_offset` (ntp-client.c, lines 895-921). Pointer presence is
modelled by `Option` (and `result_present` for the output pointer, which the
function only writes). The code returns -1 when `request`, `response` or
`result` is NULL (`recv_time` is NOT checked; dereferencing it when NULL is a
crash, the outer `none`). Otherwise it reads T1/T2/T3 from the RESPONSE's
originate/receive/transmit timestamps and T4 from `recv_time`, converts them
with `ntp_time_to_double`, and computes, per lines 914-918:
`delay = (t4-t1)-(t3-t2)`, `offset = ((t2-t1)-(t3-t4))/2`,
`final_dispersion = Q16.16(root_dispersion) + Q16.16(root_delay)/2 + delay/2`,
`client_time = T4`, `server_time = T3`. The `request` argument is only
NULL-checked, never read. -/
def calculate_ntp_offset (request response : Option NtpPacket)
    (recv_time : Option NtpTimestamp) (result_present : Bool) :
    Option (Except Int NtpResult) :=
  if request.isNone || response.isNone || !result_present then
    some (.error (-1))
  else
    match response, recv_time with
    | some resp, some rt =>
      let t1 := ntp_time_to_double resp.orig_time
      let t2 := ntp_time_to_double resp.recv_time
      let t3 := ntp_time_to_double resp.xmit_time
      let t4 := ntp_time_to_double rt
      let delay := (t4 - t1) - (t3 - t2)
      let offset := ((t2 - t1) - (t3 - t4)) / 2
      let fdisp := GET_NTP_Q1616_TS resp.root_dispersion
        + GET_NTP_Q1616_TS resp.root_delay / 2 + delay / 2
      some (.ok ⟨offset, delay, fdisp, resp.xmit_time, rt⟩)
    | _, none => none
    | none, _ => some (.error (-1))

/-- The response packet of the spec's worked example (spec section 8):
T1 = 0.0, T2 = 0.050, T3 = 0.060 seconds, encoded as NTP timestamps whose
`ntp_time_to_double` values are exactly those rationals; root fields zero. -/
def resp_example : NtpPacket :=
  { li_vn_mode := 0
    stratum := 2
    poll := 6
    precision := -20
    root_delay := 0
    root_dispersion := 0
    reference_id := 0
    ref_time := ⟨0, 0⟩
    orig_time := ⟨0, 0⟩
    recv_time := ⟨0, 214748365⟩
    xmit_time := ⟨0, 257698038⟩ }

/-- A request packet for the worked example (its contents are irrelevant to
the calculator). -/
def req_example : NtpPacket :=
  { li_vn_mode := 227
    stratum := 0
    poll := 6
    precision := -20
    root_delay := 0
    root_dispersion := 0
    reference_id := 0
    ref_time := ⟨0, 0⟩
    orig_time := ⟨0, 0⟩
    recv_time := ⟨0, 0⟩
    xmit_time := ⟨0, 0⟩ }

/-- The client receive instant T4 = 0.100 of the worked example, encoded so
that `ntp_time_to_double` gives exactly 1/10. -/
def recv_example : NtpTimestamp := ⟨0, 429496730⟩

theorem bswap32_bytes (a b c d : Nat) (ha : a < 256) (hb : b < 256)
    (hc : c < 256) (hd : d < 256) :
    bswap32 (a * 16777216 + b * 65536 + c * 256 + d)
      = d * 16777216 + c * 65536 + b * 256 + a := by
  unfold bswap32
  omega

theorem bswap32_involutive (x : Nat) (h : x < 4294967296) :
    bswap32 (bswap32 x) = x := by
  have hb0 : x % 256 < 256 := Nat.mod_lt _ (by norm_num)
  have hb1 : x / 256 % 256 < 256 := Nat.mod_lt _ (by norm_num)
  have hb2 : x / 65536 % 256 < 256 := Nat.mod_lt _ (by norm_num)
  have hb3 : x / 16777216 % 256 < 256 := Nat.mod_lt _ (by norm_num)
  have d1 : x / 256 / 256 = x / 65536 := by
    rw [Nat.div_div_eq_div_mul]
  have d2 : x / 65536 / 256 = x / 16777216 := by
    rw [Nat.div_div_eq_div_mul]
  have hx : x = x / 16777216 % 256 * 16777216 + x / 65536 % 256 * 65536
      + x / 256 % 256 * 256 + x % 256 := by
    omega
  calc bswap32 (bswap32 x)
      = bswap32 (bswap32 (x / 16777216 % 256 * 16777216 + x / 65536 % 256 * 65536
          + x / 256 % 256 * 256 + x % 256)) := by rw [← hx]
    _ = bswap32 (x % 256 * 16777216 + x / 256 % 256 * 65536 + x / 65536 % 256 * 256
          + x / 16777216 % 256) := by rw [bswap32_bytes _ _ _ _ hb3 hb2 hb1 hb0]
    _ = x / 16777216 % 256 * 16777216 + x / 65536 % 256 * 65536 + x / 256 % 256 * 256
          + x % 256 := by rw [bswap32_bytes _ _ _ _ hb0 hb1 hb2 hb3]
    _ = x := hx.symm

theorem ntohl_htonl (le : Bool) (x : Nat) (h : x < 4294967296) :
    ntohl le (htonl le x) = x := by
  cases le with
  | false => rfl
  | true => exact bswap32_involutive x h

theorem ntp_ts_roundtrip (le : Bool) (t : NtpTimestamp) (h : ts_wf t) :
    ntp_ts_to_host le (ntp_ts_to_net le t) = t := by
  obtain ⟨s, f⟩ := t
  obtain ⟨h1, h2⟩ := h
  simp only [ntp_ts_to_net, ntp_ts_to_host, NtpTimestamp.mk.injEq]
  exact ⟨ntohl_htonl le s h1, ntohl_htonl le f h2⟩

/-- C7: for every packet (well-formed 32-bit fields) and on both little- and
big-endian hosts, `ntp_to_host` after `ntp_to_net` restores every field of the
packet bit-for-bit, and both conversions leave the four 8-bit fields
(`li_vn_mode`, `stratum`, `poll`, `precision`) unchanged. -/
theorem ntp_to_host_ntp_to_net (le : Bool) (p : NtpPacket) (h : packet_wf p) :
    ntp_to_host le (ntp_to_net le p) = p
    ∧ (ntp_to_net le p).li_vn_mode = p.li_vn_mode
    ∧ (ntp_to_net le p).stratum = p.stratum
    ∧ (ntp_to_net le p).poll = p.poll
    ∧ (ntp_to_net le p).precision = p.precision
    ∧ (ntp_to_host le p).li_vn_mode = p.li_vn_mode
    ∧ (ntp_to_host le p).stratum = p.stratum
    ∧ (ntp_to_host le p).poll = p.poll
    ∧ (ntp_to_host le p).precision = p.precision := by
  refine ⟨?_, rfl, rfl, rfl, rfl, rfl, rfl, rfl, rfl⟩
  obtain ⟨lvm, st, pl, pr, rd, rdisp, rid, t1, t2, t3, t4⟩ := p
  obtain ⟨h1, h2, h3, h4, h5, h6, h7⟩ := h
  simp only [ntp_to_net, ntp_to_host, ntohl_htonl le rd h1, ntohl_htonl le rdisp h2,
    ntohl_htonl le rid h3, ntp_ts_roundtrip le t1 h4, ntp_ts_roundtrip le t2 h5,
    ntp_ts_roundtrip le t3 h6, ntp_ts_roundtrip le t4 h7]

/-- Witness for C7: the round trip restores the concrete request packet on a
little-endian host. -/
theorem ntp_to_host_ntp_to_net_witness :
    ntp_to_host true (ntp_to_net true req_example) = req_example :=
  (ntp_to_host_ntp_to_net true req_example (by decide)).1

/-- C1: at the spec's worked example (T1 = 0, T2 = 0.050, T3 = 0.060,
T4 = 0.100 seconds) `calculate_ntp_offset` produces offset 9/200 = 0.045,
because line 915 computes `((t2-t1)-(t3-t4))/2` — a subtraction where the
claimed formula `((T2-T1)+(T3-T4))/2` (which gives 1/200 = 0.005 here, and
which the code's own comment states) has an addition. -/
theorem calculate_ntp_offset_offset_sign_bug :
    (∃ r : NtpResult,
      calculate_ntp_offset (some req_example) (some resp_example) (some recv_example) true
        = some (.ok r)
      ∧ r.offset = 9 / 200
      ∧ r.server_time = ⟨0, 257698038⟩ ∧ r.client_time = recv_example)
    ∧ (9 : ℚ) / 200 ≠ ((1 / 20 - 0) + (3 / 50 - 1 / 10)) / 2 := by
  constructor
  · refine ⟨_, rfl, ?_, by decide, by decide⟩
    norm_num [ntp_time_to_double, resp_example, recv_example, FRACTIONS_TO_MICROSECONDS,
      roundDiv, NTP_FRACTION_SCALE]
  · norm_num

/-- C4: `ntp_time_to_double` routes the fraction through whole microseconds
(`FRACTIONS_TO_MICROSECONDS(fraction) / 10^6`), so a timestamp with
fraction = 1 maps to 0, while the spec's direct `fraction / 2^32` conversion
(`to_seconds_spec`) gives the non-zero 1/2^32. -/
theorem ntp_time_to_double_truncates_bug :
    ntp_time_to_double ⟨0, 1⟩ = 0
    ∧ to_seconds_spec ⟨0, 1⟩ = 1 / 4294967296
    ∧ (1 : ℚ) / 4294967296 ≠ 0 := by
  refine ⟨?_, ?_, by norm_num⟩
  · norm_num [ntp_time_to_double, FRACTIONS_TO_MICROSECONDS, roundDiv, NTP_FRACTION_SCALE]
  · norm_num [to_seconds_spec, NTP_FRACTION_SCALE]

/-- C2: for stratum 1 and ref_id 0x4E495354 the code emits the bytes of
`ref_id` least-significant-first, producing "TSIN" where the claim (and the
code's own example comment) says big-endian "NIST". -/
theorem decode_reference_id_ascii_bug :
    decode_reference_id 1 0x4E495354 16 = .ok "TSIN"
    ∧ "TSIN" ≠ "NIST" := by
  refine ⟨by rfl, by decide⟩

/-- C3: the code checks `ref_id == 0` only inside the `stratum < 2` branch, so
for stratum 2 and ref_id 0 it prints the dotted-decimal "0.0.0.0" instead of
the claimed "NONE"; the "NONE" row only applies when stratum < 2. -/
theorem decode_reference_id_none_bug :
    decode_reference_id 2 0 16 = .ok "0.0.0.0"
    ∧ decode_reference_id 1 0 16 = .ok "NONE"
    ∧ "0.0.0.0" ≠ "NONE" := by
  refine ⟨by rfl, by rfl, by decide⟩

/-- C5: when the calendar conversion fails (the chosen `localtime`/`gmtime`
oracle returns NULL), `ntp_time_to_string` dereferences the NULL result — a
crash, modelled as `none` — and never writes the sentinel "INVALID_TIME" the
claim (and the code's own comment) describes. -/
theorem ntp_time_to_string_crash_on_failure (localtime gmtime : Nat → Option Tm)
    (ts : NtpTimestamp) (use_local : Bool)
    (h : (if use_local then localtime (NTP_TO_UNIX_SECONDS ts.seconds)
          else gmtime (NTP_TO_UNIX_SECONDS ts.seconds)) = none) :
    ntp_time_to_string localtime gmtime ts use_local = none := by
  unfold ntp_time_to_string
  rw [h]

/-- Witness for C5: with an always-failing conversion the function yields no
string at all (and in particular not "INVALID_TIME"). -/
theorem ntp_time_to_string_crash_on_failure_witness :
    ntp_time_to_string (fun _ => none) (fun _ => none) ⟨0, 0⟩ false = none :=
  ntp_time_to_string_crash_on_failure (fun _ => none) (fun _ => none) ⟨0, 0⟩ false rfl

/-- C6: for every pair of packets and receive timestamp the calculator
succeeds with `delay = (T4 - T1) - (T3 - T2)` and
`final_dispersion = Q16.16(root_dispersion) + Q16.16(root_delay)/2 + delay/2`,
and at the spec's worked example the delay is 9/100 = 0.090. -/
theorem calculate_ntp_offset_delay_dispersion :
    (∀ (req resp : NtpPacket) (rt : NtpTimestamp),
      ∃ r : NtpResult,
        calculate_ntp_offset (some req) (some resp) (some rt) true = some (.ok r)
        ∧ r.delay = (ntp_time_to_double rt - ntp_time_to_double resp.orig_time)
            - (ntp_time_to_double resp.xmit_time - ntp_time_to_double resp.recv_time)
        ∧ r.final_dispersion = GET_NTP_Q1616_TS resp.root_dispersion
            + GET_NTP_Q1616_TS resp.root_delay / 2 + r.delay / 2)
    ∧ (∃ r : NtpResult,
        calculate_ntp_offset (some req_example) (some resp_example) (some recv_example) true
          = some (.ok r) ∧ r.delay = 9 / 100) := by
  constructor
  · intro req resp rt
    exact ⟨_, rfl, rfl, rfl⟩
  · refine ⟨_, rfl, ?_⟩
    norm_num [ntp_time_to_double, resp_example, recv_example, FRACTIONS_TO_MICROSECONDS,
      roundDiv, NTP_FRACTION_SCALE]

/-- C8: for a present (non-NULL) packet pointer and any clock reading,
`build_ntp_request` succeeds and yields leap indicator 3, version 4, mode 3
(read back through the 2/3/3 accessors), stratum 0, poll 6, precision -20,
zero root/reference fields, zero timestamps except `xmit_time`, which carries
the current instant. -/
theorem build_ntp_request_fields (unix_sec usec : Nat) :
    ∃ p : NtpPacket, build_ntp_request true unix_sec usec = .ok p
      ∧ GET_NTP_LI p.li_vn_mode = 3
      ∧ GET_NTP_VN p.li_vn_mode = 4
      ∧ GET_NTP_MODE p.li_vn_mode = 3
      ∧ p.stratum = 0 ∧ p.poll = 6 ∧ p.precision = -20
      ∧ p.root_delay = 0 ∧ p.root_dispersion = 0 ∧ p.reference_id = 0
      ∧ p.ref_time = ⟨0, 0⟩ ∧ p.orig_time = ⟨0, 0⟩ ∧ p.recv_time = ⟨0, 0⟩
      ∧ p.xmit_time = get_current_ntp_time unix_sec usec := by
  refine ⟨_, rfl, ?_, ?_, ?_, rfl, rfl, rfl, rfl, rfl, rfl, rfl, rfl, rfl, rfl⟩ <;>
    norm_num [GET_NTP_LI, GET_NTP_VN, GET_NTP_MODE, SET_NTP_LI_VN_MODE]

/-- C9: `calculate_ntp_offset` reports an error exactly when one of the
request, response or result pointers is absent (the error path produces no
result value), and with all pointers present it always succeeds — no
validation of timestamp ordering is performed. -/
theorem calculate_ntp_offset_null_check :
    (∀ (req resp : Option NtpPacket) (rt : Option NtpTimestamp) (res : Bool),
      (∃ e, calculate_ntp_offset req resp rt res = some (.error e))
        ↔ (req = none ∨ resp = none ∨ res = false))
    ∧ (∀ (p q : NtpPacket) (t : NtpTimestamp),
      ∃ r, calculate_ntp_offset (some p) (some q) (some t) true = some (.ok r)) := by
  constructor
  · intro req resp rt res
    cases req <;> cases resp <;> cases rt <;> cases res <;>
      simp [calculate_ntp_offset]
  · intro p q t
    exact ⟨_, rfl⟩

/-- C10: the computed result does not depend on the request packet's contents
— two calls differing only in the (present) request packet agree exactly,
because T1 is read from the response's originate field. -/
theorem calculate_ntp_offset_request_independent (req1 req2 resp : NtpPacket)
    (rt : NtpTimestamp) :
    calculate_ntp_offset (some req1) (some resp) (some rt) true
      = calculate_ntp_offset (some req2) (some resp) (some rt) true := rfl
